import Mathlib

/-!
Shallow embedding of `autospec/verify_sign.py` (package signature / checksum
verification) and proofs of the specification claims about it.

Conventions of the embedding:
* Python functions become Lean functions; a Python method reads its `self`
  attributes, which become explicit parameters or an environment record.
* Fallible Python code returns `Except PyExc α`: an uncaught Python exception
  is modelled as `Except.error`.
* External effects (the filesystem, HTTP transport, the gpg subprocess) are
  modelled by passing in the observable result of the effect (file contents,
  transport outcome, subprocess stdout/stderr) as explicit inputs.
* Python `None` becomes `Option.none`.
-/

/-- Python exception classes that the source can raise. -/
inductive PyExc where
  | valueError      -- str.index failure / tuple-unpacking failure
  | typeError       -- None + str concatenation
  | attributeError  -- attribute access on None (None.upper())
  | pycurlError     -- pycurl.error from curl.perform()
  | jsonError       -- json.loads failure on a malformed body
  deriving DecidableEq, Repr

/-! ## String helpers (Python `str` semantics over `List Char`) -/

/-- Python whitespace for `str.strip()` (space, tab, newline, CR, VT, FF). -/
def pyIsSpace (c : Char) : Bool :=
  c == ' ' || c == '\t' || c == '\n' || c == '\r' || c == '\x0b' || c == '\x0c'

/-- Python `s.strip()`: drop whitespace from both ends. -/
def pyStrip (l : List Char) : List Char :=
  ((l.dropWhile pyIsSpace).reverse.dropWhile pyIsSpace).reverse

/-- Python `s.upper()` (ASCII, enough for hexadecimal key ids). -/
def pyUpper (s : String) : String :=
  String.mk (s.data.map Char.toUpper)

/-- Python `hay.index(needle)` / `hay.find(needle)`: index of the leftmost
occurrence of `needle` in `hay`, `none` when absent. -/
def strIndex (needle : List Char) : List Char → Option Nat
  | [] => if needle = [] then some 0 else none
  | c :: rest =>
    if needle.isPrefixOf (c :: rest) then some 0
    else (strIndex needle rest).map (· + 1)

/-- Python `os.path.basename`: the part of the path after the last slash. -/
def basename (s : String) : String :=
  String.mk ((s.data.reverse.takeWhile (fun c => c ≠ '/')).reverse)

/-- Python `s.replace(pat, rep)` (all non-overlapping occurrences, scanning
left to right), with fuel bounded by the string length; an empty pattern is
treated as a no-op (the source only ever uses non-empty patterns). -/
def pyReplaceFuel : Nat → List Char → List Char → List Char → List Char
  | 0, s, _, _ => s
  | fuel + 1, s, pat, rep =>
    match s with
    | [] => []
    | c :: rest =>
      if pat.isPrefixOf s ∧ pat ≠ [] then
        rep ++ pyReplaceFuel fuel (s.drop pat.length) pat rep
      else
        c :: pyReplaceFuel fuel rest pat rep

/-- Python `s.replace(pat, rep)`. -/
def pyReplace (s pat rep : String) : String :=
  String.mk (pyReplaceFuel s.data.length s.data pat.data rep.data)

/-! ## Fetcher: `attempt_to_download` (verify_sign.py lines 301-318) -/

/-- Observable outcome of `curl.perform()` on the destination file handle:
either a transport-level `pycurl.error` after some bytes were already written,
or a completed response with a final HTTP status code and a body. -/
inductive CurlResult where
  | curlError (written : String)
  | completed (code : Nat) (body : String)
  deriving DecidableEq, Repr

/-- Result of `attempt_to_download`: the returned value (`none` is Python
`None`, the sentinel) and the state of the destination file after the call
(`none` means the file does not exist on disk). -/
structure DownloadResult where
  status : Option Nat
  destFile : Option String
  deriving DecidableEq, Repr

/-- Embedding of `attempt_to_download(url, sign_filename)`: the destination is
opened with mode `wb` (truncated), curl streams into it; on `pycurl.error` the
function prints and returns `None` (the partially written file is left on
disk); otherwise, when the final status is not 200 the file is unlinked, and
the status code is returned. -/
def attempt_to_download : CurlResult → DownloadResult
  | .curlError written => ⟨none, some written⟩
  | .completed code body =>
    if code ≠ 200 then ⟨some code, none⟩ else ⟨some code, some body⟩

/-! ## Dispatcher: `get_file_ext`, `VERIFIER_TYPES`, `get_verifier`
(verify_sign.py lines 269-281) -/

/-- The two verifier classes of the source. -/
inductive VerifierType where
  | gpg     -- GPGVerifier
  | gemsha  -- GEMShaVerifier
  deriving DecidableEq, Repr

/-- Extension part of CPython `os.path.splitext` restricted to the basename:
the suffix starting at the last dot, unless every character before that dot
(within the basename) is itself a dot, in which case there is no extension. -/
def splitextExt (b : List Char) : List Char :=
  if b.contains '.' then
    let afterDot := (b.reverse.takeWhile (fun c => c ≠ '.')).reverse
    let d := b.length - afterDot.length - 1
    if (b.take d).all (fun c => c = '.') then [] else b.drop d
  else []

/-- Embedding of `get_file_ext(filename)` = `os.path.splitext(filename)[1]`.
The last dot of the whole path lies in the basename whenever the basename
contains a dot, so the computation is done on the basename. -/
def get_file_ext (filename : String) : String :=
  String.mk (splitextExt (basename filename).data)

/-- The static dispatch table `VERIFIER_TYPES`. -/
def VERIFIER_TYPES : List (String × VerifierType) :=
  [(".gz", VerifierType.gpg), (".gem", VerifierType.gemsha)]

/-- Embedding of `get_verifier(filename)`: dictionary lookup of the file
extension in `VERIFIER_TYPES`, defaulting to `None`. -/
def get_verifier (filename : String) : Option VerifierType :=
  (VERIFIER_TYPES.find? (fun p => p.1 == get_file_ext filename)).map (·.2)

/-! ## Key Identifier Extractor: `parse_keyid`, `get_keyid`
(verify_sign.py lines 284-298) -/

/-- Embedding of `parse_keyid(sig_filename)`. The observable behaviour of the
`gpg --list-packet` subprocess on the signature file is passed in as its
decoded stdout `out` and stderr `err`. When stderr is non-empty the function
prints it and returns `None`; otherwise `out.index('keyid')` raises
`ValueError` when the label is absent, as does `out[ai:].index('\n')` when no
newline follows; on success the token between `'keyid '` and the next newline
is returned, stripped. -/
def parse_keyid (out err : String) : Except PyExc (Option String) :=
  if err ≠ "" then .ok none
  else
    match strIndex "keyid".data out.data with
    | none => .error .valueError
    | some i =>
      let ai := i + "keyid ".length
      match strIndex "\n".data (out.data.drop ai) with
      | none => .error .valueError
      | some j => .ok (some (String.mk (pyStrip ((out.data.drop ai).take j))))

/-- Embedding of `get_keyid(sig_filename)`: `parse_keyid(...).upper()`. When
`parse_keyid` returns `None`, `None.upper()` raises `AttributeError`. -/
def get_keyid (out err : String) : Except PyExc String :=
  match parse_keyid out err with
  | .error e => .error e
  | .ok none => .error .attributeError
  | .ok (some s) => .ok (pyUpper s)

/-! ## Signature Engine contexts: `cli_gpg_ctx`, `gpg_ctx`
(verify_sign.py lines 86-121) -/

/-- How the keyring-import-plus-verify sequence guarded by the context manager
exits: normally, with an exception raised by the key import, or with an
exception raised by the body (the verify call). -/
inductive CtxExit where
  | normal
  | importError
  | bodyException
  deriving DecidableEq, Repr

/-- Observable directory effects of one context-manager use: whether a
temporary keyring directory was created, whether that temporary directory was
removed again, and whether the caller-supplied keyring directory was removed. -/
structure KeyringEffects where
  tempCreated : Bool
  tempDeleted : Bool
  callerDirDeleted : Bool
  deriving DecidableEq, Repr

/-- Embedding of the directory effects of `cli_gpg_ctx(pubkey, gpghome)`.
With no pubkey it yields a bare `GPGCli()` (no keyring provisioning). With a
pubkey and no caller gpghome it creates a temporary directory and the
`finally` block removes it on every exit (`shutil.rmtree` runs whether
the import raised, the body raised, or everything succeeded). With a caller
gpghome the `finally` guard `if gpghome is None` skips all removal. -/
def cli_gpg_ctx (pubkey gpghome : Option String) (_exit : CtxExit) :
    KeyringEffects :=
  match pubkey with
  | none => ⟨false, false, false⟩
  | some _ =>
    match gpghome with
    | some _ => ⟨false, false, false⟩
    | none => ⟨true, true, false⟩

/-- Embedding of the directory effects of `gpg_ctx(pubkey, gpghome)` (the
gpgme backend). With a pubkey it always creates a fresh temporary directory;
the `finally` block removes it only when `gpghome is None` — a caller-supplied
keyring directory is itself never removed on any path. -/
def gpg_ctx (pubkey gpghome : Option String) (_exit : CtxExit) :
    KeyringEffects :=
  match pubkey with
  | none => ⟨false, false, false⟩
  | some _ =>
    match gpghome with
    | some _ => ⟨true, false, false⟩
    | none => ⟨true, true, false⟩

/-! ## Registry Digest Strategy: `GEMShaVerifier`
(verify_sign.py lines 222-267) -/

/-- One release record from the rubygems versions listing: the `number` and
`sha` fields of the JSON object, each possibly absent. -/
structure Gem where
  number : Option String
  sha : Option String
  deriving DecidableEq, Repr

/-- Observable outcome of the registry query in `get_rubygems_info`: a
transport-level `pycurl.error` from `curl.perform()`, a body on which
`json.loads` raises, or a successfully parsed list of release records. -/
inductive RegistryResponse where
  | transportError
  | malformedBody
  | parsed (gems : List Gem)
  deriving DecidableEq, Repr

/-- Embedding of `get_rubygems_info(package_name)`: `curl.perform()` and
`json.loads` are not wrapped in any handler, so both failure modes raise. -/
def get_rubygems_info : RegistryResponse → Except PyExc (List Gem)
  | .transportError => .error .pycurlError
  | .malformedBody => .error .jsonError
  | .parsed gems => .ok gems

/-- Python `gem.get('number', -100) == number`: a record with no `number`
field yields the sentinel `-100`, which never equals the string `number`. -/
def gemMatches (number : String) (g : Gem) : Bool :=
  g.number == some number

/-- Embedding of `get_gemnumber_sha(gems, number)`: filter the records whose
`number` field equals `number`; when exactly one matches return its `sha`
field (`None` when the field is absent), otherwise return `None`. -/
def get_gemnumber_sha (gems : List Gem) (number : String) : Option String :=
  match gems.filter (gemMatches number) with
  | [g] => g.sha
  | _ => none

/-- Leftmost match of the regex `-\d+\.` at the head of `l`: a hyphen, one or
more digits, then a literal dot. Returns the remainder after the match,
packaged with a proof that the remainder is shorter than the input. -/
def matchVD : (l : List Char) → Option { t : List Char // t.length < l.length }
  | [] => none
  | c :: rest =>
    if c = '-' then
      let n := (rest.takeWhile Char.isDigit).length
      if n = 0 then none
      else
        match hdrop : rest.drop n with
        | [] => none
        | d :: tail =>
          if d = '.' then
            some ⟨tail, by
              have h1 : (rest.drop n).length = rest.length - n :=
                List.length_drop n rest
              rw [hdrop] at h1
              simp only [List.length_cons] at h1
              simp only [List.length_cons]
              omega⟩
          else none
    else none

/-- Leftmost match of `-\d+\.` anywhere in `l`, as `re.split` scans for it:
the text before the match and the remainder after it. -/
def findVD : (l : List Char) →
    Option (List Char × { s : List Char // s.length < l.length })
  | [] => none
  | c :: rest =>
    match matchVD (c :: rest) with
    | some ⟨t, ht⟩ => some ([], ⟨t, ht⟩)
    | none =>
      match findVD rest with
      | some (p, ⟨s, hs⟩) =>
        some (c :: p, ⟨s, by simp only [List.length_cons]; omega⟩)
      | none => none

/-- Fuelled worker for `re.split('-\d+\.', s)`: split at every match, left to
right. A fuel of `l.length + 1` always suffices because each match consumes at
least one character. -/
def reSplitVDFuel : Nat → List Char → List (List Char)
  | 0, l => [l]
  | fuel + 1, l =>
    match findVD l with
    | none => [l]
    | some (p, ⟨s, _⟩) => p :: reSplitVDFuel fuel s

/-- Embedding of `re.split('-\d+\.', s)` over the characters of `s`. -/
def reSplitVD (l : List Char) : List (List Char) :=
  reSplitVDFuel (l.length + 1) l

/-- Embedding of the name/number derivation at the top of
`GEMShaVerifier.verify`:
`gemname = os.path.basename(package_path).replace('.gem', '')`,
`name, _ = re.split('-\d+\.', package_path)` (the unpacking raises
`ValueError` unless the split yields exactly two pieces, and it is applied to
the full path, not the basename), and
`number = gemname.replace(name + '-', '')`. -/
def deriveNameNumber (package_path : String) : Option (String × String) :=
  let gemname := pyReplace (basename package_path) ".gem" ""
  match reSplitVD package_path.data with
  | [namePiece, _] =>
    let name := String.mk namePiece
    some (name, pyReplace gemname (name ++ "-") "")
  | _ => none

/-- The derived package name alone (first component of the split). -/
def derivedName (package_path : String) : Option String :=
  (deriveNameNumber package_path).map (·.1)

/-- Embedding of the body of `GEMShaVerifier.verify`. `package_path` is the
`self.package_path` attribute; `resp` is the observable registry response;
`calcsha` is the SHA-256 hex digest of the local file as `calc_sha` computes
it. A failed unpacking of the split raises `ValueError`; registry faults
raise from `get_rubygems_info`; otherwise the method prints and returns the
boolean `gemsha == calcsha` (Python `None == str` is `False`). The method
never returns the Python value `None` on this path, so the result is
`.ok (some b)`. -/
def GEMverify (package_path : String) (resp : RegistryResponse)
    (calcsha : String) : Except PyExc (Option Bool) :=
  match deriveNameNumber package_path with
  | none => .error .valueError
  | some nn =>
    match get_rubygems_info resp with
    | .error e => .error e
    | .ok gems => .ok (some (get_gemnumber_sha gems nn.2 == some calcsha))

/-! ## Digest engine: `GEMShaVerifier.calc_sha`
(verify_sign.py lines 246-252) -/

/-- Fuelled block reader: `iter(lambda: gem.read(BLOCK_SIZE), b'')` yields the
file contents in blocks of `bsize` bytes; `read(0)` returns `b''` at once, so
a zero block size yields no blocks. Fuel `l.length + 1` always suffices. -/
def chunkBytesFuel : Nat → Nat → List UInt8 → List (List UInt8)
  | 0, _, _ => []
  | fuel + 1, bsize, l =>
    if bsize = 0 ∨ l = [] then []
    else l.take bsize :: chunkBytesFuel fuel bsize (l.drop bsize)

/-- The sequence of blocks `read(bsize)` yields on a file holding `l`. -/
def chunkBytes (bsize : Nat) (l : List UInt8) : List (List UInt8) :=
  chunkBytesFuel (l.length + 1) bsize l

/-- `hashlib.sha256().update(block)`: the hash object absorbs bytes; its
abstract state is the concatenation of everything fed so far. -/
def sha256_update (state block : List UInt8) : List UInt8 :=
  state ++ block

/-- Embedding of `calc_sha(gemfile_path)` generalized over the read block
size (the source fixes `BLOCK_SIZE = 4096`): stream the file in blocks into
the hash state and apply `hexdigest` to the absorbed bytes. `hexdigest`
abstracts the SHA-256 compression-and-format step, a pure function of the
absorbed bytes. -/
def calc_sha (hexdigest : List UInt8 → String) (block_size : Nat)
    (contents : List UInt8) : String :=
  hexdigest ((chunkBytes block_size contents).foldl sha256_update [])

/-! ## Signature Strategy: `GPGVerifier.verify`
(verify_sign.py lines 170-216) -/

/-- Environment of one `GPGVerifier.verify()` call: the `self` attributes that
the method reads plus the observable results of its external effects. The
keyring is the set of key ids `K` for which `<dir>/keyring/K.pkey` exists. -/
structure GPGEnv where
  package_path : String
  package_sign_path : String
  packageExists : Bool
  signExists : Bool
  downloadStatus : CurlResult
  listPacketOut : String
  listPacketErr : String
  keyring : List String
  engineStatus : Option String
  deriving Repr

/-- Outcome of one `GPGVerifier.verify()` call: the returned Python value
(`True` or `None` — the method never returns `False`), whether the underlying
crypto engine (`verify_cli` / `verify_gpgme`) was invoked, and the `err_msg`
passed to `print_result` (`none` on the success print). -/
structure GPGOutcome where
  result : Option Bool
  engineInvoked : Bool
  errMsg : Option String
  deriving DecidableEq, Repr

/-- Embedding of `GPGVerifier.verify()`:
1. missing package file → failure print, return `None`;
2. missing signature file and `get_sign()` not `True` (the download did not
   return status 200) → failure print, return `None`;
3. `get_pubkey_path()` extracts the key id (its `get_keyid` call can raise);
4. pubkey file absent from the keyring → failure print naming the key id,
   return `None`, engine never invoked;
5. otherwise the engine runs: a `None` status is success (return `True`), any
   other status is a failure print with the engine's `strerror` (falling off
   the end returns `None`). -/
def GPGVerifier_verify (env : GPGEnv) : Except PyExc GPGOutcome :=
  if env.packageExists = false then
    .ok ⟨none, false, some (env.package_path ++ " not found")⟩
  else if env.signExists = false ∧
      (attempt_to_download env.downloadStatus).status ≠ some 200 then
    .ok ⟨none, false, some (env.package_sign_path ++ " not found")⟩
  else
    match get_keyid env.listPacketOut env.listPacketErr with
    | .error e => .error e
    | .ok keyid =>
      if env.keyring.contains keyid = false then
        .ok ⟨none, false,
          some ("Public key " ++ keyid ++ " not found in keyring")⟩
      else
        match env.engineStatus with
        | none => .ok ⟨some true, true, none⟩
        | some msg => .ok ⟨none, true, some msg⟩

/-! ## Constructors and disk entry point: `Verifier.__init__`,
`GPGVerifier.__init__`, `from_disk` (verify_sign.py lines 143-179, 344-350) -/

/-- The keyword arguments a verifier constructor can receive; an absent key
makes `kwargs.get(key, None)` return `None`. `from_disk` passes exactly
`package_path` and `package_check`. -/
structure Kwargs where
  url : Option String
  package_sign_path : Option String
  key_url : Option String
  package_path : Option String
  package_check : Option String
  deriving DecidableEq, Repr

/-- Attributes of a constructed `GPGVerifier` (it stores `url`,
`package_sign_path`, `key_url` and `package_path`; nothing else). -/
structure GPGState where
  url : Option String
  package_sign_path : String
  key_url : Option String
  package_path : Option String
  deriving DecidableEq, Repr

/-- Embedding of `GPGVerifier.__init__(**kwargs)` on top of
`Verifier.__init__`: reads only the keys `url`, `package_sign_path`,
`key_url` and `package_path`; when `key_url` is absent and `url` is present,
`key_url = url + '.asc'`; when `package_sign_path` is absent it becomes
`package_path + '.asc'`, raising `TypeError` when `package_path` is also
absent (`None + '.asc'`). The `package_check` key is never read. -/
def GPGVerifier_init (kw : Kwargs) : Except PyExc GPGState :=
  let key_url :=
    match kw.key_url, kw.url with
    | none, some u => some (u ++ ".asc")
    | ku, _ => ku
  match kw.package_sign_path with
  | some s => .ok ⟨kw.url, s, key_url, kw.package_path⟩
  | none =>
    match kw.package_path with
    | some pp => .ok ⟨kw.url, pp ++ ".asc", key_url, kw.package_path⟩
    | none => .error .typeError

/-- Embedding of the `.gz` branch of `from_disk(package_path, package_check)`:
dispatch on the extension and construct
`GPGVerifier(package_path=package_path, package_check=package_check)`;
`none` when the dispatcher selects no strategy or a different one. -/
def from_disk_gpg (package_path package_check : String) :
    Option (Except PyExc GPGState) :=
  match get_verifier package_path with
  | some VerifierType.gpg =>
    some (GPGVerifier_init
      ⟨none, none, none, some package_path, some package_check⟩)
  | _ => none

/-! ## Helper lemmas -/

/-- Folding the hash update over a block list absorbs the concatenation of
the blocks. -/
theorem foldl_sha256_update (cs : List (List UInt8)) (a : List UInt8) :
    cs.foldl sha256_update a = a ++ cs.flatten := by
  induction cs generalizing a with
  | nil => simp
  | cons c t ih =>
    simp only [List.foldl_cons, sha256_update, ih (a ++ c), List.flatten_cons,
      List.append_assoc]

/-- With a positive block size and enough fuel, the blocks concatenate back
to the whole contents. -/
theorem chunkBytesFuel_join (b : Nat) (hb : 0 < b) :
    ∀ (fuel : Nat) (l : List UInt8), l.length ≤ fuel →
      (chunkBytesFuel fuel b l).flatten = l := by
  intro fuel
  induction fuel with
  | zero =>
    intro l hl
    have hnil : l = [] := by
      cases l with
      | nil => rfl
      | cons a t => simp at hl
    subst hnil
    simp [chunkBytesFuel]
  | succ n ih =>
    intro l hl
    by_cases hnil : l = []
    · subst hnil
      simp [chunkBytesFuel]
    · have hcond : ¬ (b = 0 ∨ l = []) := by
        push_neg
        exact ⟨by omega, hnil⟩
      simp only [chunkBytesFuel]
      rw [if_neg hcond]
      simp only [List.flatten_cons]
      rw [ih (l.drop b) (by
        have hd : (l.drop b).length = l.length - b := List.length_drop b l
        have hp : 0 < l.length := List.length_pos.mpr hnil
        omega)]
      exact List.take_append_drop b l

/-! ## Claim theorems -/

/-- C1 (code_bug). The claim says `get_keyid` / `parse_keyid` return a
parse-failure result rather than crashing when the packet listing fails or
exposes no `keyid` field. The code crashes instead: when `gpg --list-packet`
reports an error on stderr, `parse_keyid` returns `None` and `get_keyid`
raises `AttributeError` on `None.upper()`; when the listing succeeds but the
output has no `keyid` label, `out.index('keyid')` raises `ValueError` inside
`parse_keyid`. Only the third conjunct — a listing that does expose the field
returns the upper-cased hexadecimal token — behaves as claimed. -/
theorem get_keyid_crash_on_unparseable :
    get_keyid "" "gpg: no valid OpenPGP data\n" = .error PyExc.attributeError ∧
    get_keyid ":compressed packet: algo=1\n" "" = .error PyExc.valueError ∧
    get_keyid ":signature packet: algo 1, keyid 672c6eed924cd189\n\tversion 4\n" ""
      = .ok "672C6EED924CD189" :=
  ⟨rfl, rfl, rfl⟩

/-- C2 (counterexample). On a transport-level error `attempt_to_download`
does return the sentinel `None`, but the partially written destination file
is NOT deleted — refuting the claim that it is deleted on that path. -/
theorem attempt_to_download_partial_file_remains :
    (attempt_to_download (CurlResult.curlError "bytes")).status = none ∧
    (attempt_to_download (CurlResult.curlError "bytes")).destFile = some "bytes" ∧
    (attempt_to_download (CurlResult.curlError "bytes")).destFile ≠ none :=
  ⟨rfl, rfl, by decide⟩

/-- C2 (amended). On a transport-level error the fetcher returns the sentinel
`None` without raising but leaves the partially written destination file in
place; a completed response with a non-200 final status deletes the
destination file and returns the status; a 200 response keeps the file and
returns 200. -/
theorem attempt_to_download_characterization (w body : String) (code : Nat) :
    attempt_to_download (CurlResult.curlError w) = ⟨none, some w⟩ ∧
    (code ≠ 200 →
      attempt_to_download (CurlResult.completed code body) = ⟨some code, none⟩) ∧
    attempt_to_download (CurlResult.completed 200 body) = ⟨some 200, some body⟩ := by
  refine ⟨rfl, fun h => ?_, rfl⟩
  simp [attempt_to_download, h]

/-- Witness for C2's amended theorem at a concrete transport error and a
concrete 404/200 response. -/
theorem attempt_to_download_characterization_witness :
    attempt_to_download (CurlResult.curlError "x") = ⟨none, some "x"⟩ ∧
    attempt_to_download (CurlResult.completed 404 "b") = ⟨some 404, none⟩ ∧
    attempt_to_download (CurlResult.completed 200 "b") = ⟨some 200, some "b"⟩ :=
  ⟨(attempt_to_download_characterization "x" "b" 404).1,
   (attempt_to_download_characterization "x" "b" 404).2.1 (by decide),
   (attempt_to_download_characterization "x" "b" 404).2.2⟩

/-- C3 (counterexample). For a registry response in which zero releases match
the derived version, `GEMShaVerifier.verify` returns `False` — the Failed
outcome — not the Python `None` that an Indeterminate outcome would be,
refuting the claim that a version-count other than one yields Indeterminate. -/
theorem gem_verify_zero_matches_failed :
    GEMverify "bar-2.gem" (RegistryResponse.parsed []) "aa" = .ok (some false) ∧
    (some false : Option Bool) ≠ none :=
  ⟨rfl, by simp⟩

/-- C3 (amended). With the registry response parsed, `GEMShaVerifier.verify`
returns `Verified` (`True`) exactly when the filtered release list is a
singleton whose `sha` field equals the locally computed digest; and whenever
the number of matching releases is not exactly one the outcome is `Failed`
(`False`), not Indeterminate. -/
theorem gem_verify_exact_match (pp name number calcsha : String)
    (gems : List Gem) (h : deriveNameNumber pp = some (name, number)) :
    (GEMverify pp (RegistryResponse.parsed gems) calcsha = .ok (some true) ↔
      ∃ g, gems.filter (gemMatches number) = [g] ∧ g.sha = some calcsha) ∧
    ((gems.filter (gemMatches number)).length ≠ 1 →
      GEMverify pp (RegistryResponse.parsed gems) calcsha = .ok (some false)) := by
  have hv : GEMverify pp (RegistryResponse.parsed gems) calcsha =
      .ok (some (get_gemnumber_sha gems number == some calcsha)) := by
    simp [GEMverify, h, get_rubygems_info]
  constructor
  · rw [hv]
    simp only [Except.ok.injEq, Option.some.injEq, beq_iff_eq]
    unfold get_gemnumber_sha
    cases hf : gems.filter (gemMatches number) with
    | nil => simp
    | cons g t =>
      cases t with
      | nil => simp
      | cons g2 t2 => simp
  · intro hlen
    rw [hv]
    unfold get_gemnumber_sha
    cases hf : gems.filter (gemMatches number) with
    | nil => simp
    | cons g t =>
      cases t with
      | nil =>
        rw [hf] at hlen
        simp at hlen
      | cons g2 t2 => simp

/-- Witness for C3's amended theorem: an exactly-matching release with the
matching digest verifies, and an empty release list yields `False`. -/
theorem gem_verify_exact_match_witness :
    GEMverify "bar-2.gem" (RegistryResponse.parsed [⟨some "2", some "aa"⟩]) "aa"
      = .ok (some true) ∧
    GEMverify "bar-2.gem" (RegistryResponse.parsed []) "aa" = .ok (some false) :=
  ⟨(gem_verify_exact_match "bar-2.gem" "bar" "2" "aa" [⟨some "2", some "aa"⟩]
      rfl).1.mpr ⟨⟨some "2", some "aa"⟩, rfl, rfl⟩,
   (gem_verify_exact_match "bar-2.gem" "bar" "2" "aa" [] rfl).2 (by decide)⟩

/-- C4 (counterexample). A registry response whose body is not parseable as
JSON makes `GEMShaVerifier.verify` raise the raw `json` decode error, and a
transport failure raises the raw `pycurl.error` — neither is converted into a
verification outcome, refuting the claim that the strategy layer catches
them. -/
theorem gem_verify_malformed_propagates :
    GEMverify "bar-2.gem" RegistryResponse.malformedBody "aa"
      = .error PyExc.jsonError ∧
    GEMverify "bar-2.gem" RegistryResponse.transportError "aa"
      = .error PyExc.pycurlError :=
  ⟨rfl, rfl⟩

/-- C4 (amended). For every gem package path on which the name/version split
succeeds, a malformed registry body and a transport failure during the
registry query are NOT caught at the strategy layer: `GEMShaVerifier.verify`
propagates the raw exception to its caller. -/
theorem gem_verify_raw_faults_propagate (pp calcsha : String)
    (nn : String × String) (h : deriveNameNumber pp = some nn) :
    GEMverify pp RegistryResponse.malformedBody calcsha
      = .error PyExc.jsonError ∧
    GEMverify pp RegistryResponse.transportError calcsha
      = .error PyExc.pycurlError := by
  constructor <;> simp [GEMverify, h, get_rubygems_info]

/-- Witness for C4's amended theorem at a concrete package path. -/
theorem gem_verify_raw_faults_propagate_witness :
    GEMverify "bar-2.gem" RegistryResponse.malformedBody "zz"
      = .error PyExc.jsonError ∧
    GEMverify "bar-2.gem" RegistryResponse.transportError "zz"
      = .error PyExc.pycurlError :=
  gem_verify_raw_faults_propagate "bar-2.gem" "zz" ("bar", "2") rfl

/-- C5 (confirmed). For an explicit public key with no caller-supplied
keyring directory, both backends create a temporary keyring directory and
delete it on every exit path — normal completion, an import error, or an
exception in the body — and with a caller-supplied keyring directory neither
backend ever deletes that directory, on any exit path and with or without an
explicit public key. -/
theorem keyring_cleanup_on_all_exits (pk gh : String) (pko : Option String)
    (e : CtxExit) :
    (cli_gpg_ctx (some pk) none e).tempCreated = true ∧
    (cli_gpg_ctx (some pk) none e).tempDeleted = true ∧
    (gpg_ctx (some pk) none e).tempCreated = true ∧
    (gpg_ctx (some pk) none e).tempDeleted = true ∧
    (cli_gpg_ctx pko (some gh) e).callerDirDeleted = false ∧
    (gpg_ctx pko (some gh) e).callerDirDeleted = false := by
  cases pko <;> simp [cli_gpg_ctx, gpg_ctx]

/-- C6 (confirmed). Whenever the package is present, the signature is present
or successfully fetched, and the key identifier extracted from the signature
has no public-key file in the keyring, `GPGVerifier.verify` returns `None`
(the Indeterminate outcome) with the key-not-found diagnostic and the
underlying crypto engine is never invoked. -/
theorem gpg_verify_untrusted_key_indeterminate (env : GPGEnv) (k : String)
    (hp : env.packageExists = true)
    (hs : env.signExists = true ∨
      (attempt_to_download env.downloadStatus).status = some 200)
    (hk : get_keyid env.listPacketOut env.listPacketErr = Except.ok k)
    (hn : env.keyring.contains k = false) :
    GPGVerifier_verify env =
      .ok ⟨none, false, some ("Public key " ++ k ++ " not found in keyring")⟩ := by
  simp at hn
  rcases hs with hs | hs <;>
    simp [GPGVerifier_verify, hp, hk, hn, hs]

/-- Witness for C6 at a concrete environment whose keyring lacks the
extracted key id `12AB`. -/
theorem gpg_verify_untrusted_key_indeterminate_witness :
    GPGVerifier_verify
        ⟨"p.tar.gz", "p.tar.gz.asc", true, true, CurlResult.completed 200 "",
          "keyid 12ab\n", "", ["FFFF"], none⟩ =
      .ok ⟨none, false, some "Public key 12AB not found in keyring"⟩ :=
  gpg_verify_untrusted_key_indeterminate
    ⟨"p.tar.gz", "p.tar.gz.asc", true, true, CurlResult.completed 200 "",
      "keyid 12ab\n", "", ["FFFF"], none⟩
    "12AB" rfl (Or.inl rfl) rfl rfl

/-- C7 (confirmed). The dispatcher maps the extension `.gz` to the GPG
signature strategy, `.gem` to the registry-digest strategy, and every other
extension to no strategy at all — a clean `None`, with no exception. -/
theorem get_verifier_closed_table (f : String) :
    (get_file_ext f = ".gz" → get_verifier f = some VerifierType.gpg) ∧
    (get_file_ext f = ".gem" → get_verifier f = some VerifierType.gemsha) ∧
    (get_file_ext f ≠ ".gz" → get_file_ext f ≠ ".gem" → get_verifier f = none) := by
  refine ⟨fun h => ?_, fun h => ?_, fun h1 h2 => ?_⟩
  · simp only [get_verifier, h]
    decide
  · simp only [get_verifier, h]
    decide
  · have h1' : ((".gz" : String) == get_file_ext f) = false :=
      beq_eq_false_iff_ne.mpr (fun hh => h1 hh.symm)
    have h2' : ((".gem" : String) == get_file_ext f) = false :=
      beq_eq_false_iff_ne.mpr (fun hh => h2 hh.symm)
    simp [get_verifier, VERIFIER_TYPES, List.find?, h1', h2']

/-- Witness for C7 on the three kinds of filenames. -/
theorem get_verifier_closed_table_witness :
    get_verifier "pkg.tar.gz" = some VerifierType.gpg ∧
    get_verifier "bar-2.0.0.gem" = some VerifierType.gemsha ∧
    get_verifier "pkg.zip" = none :=
  ⟨(get_verifier_closed_table "pkg.tar.gz").1 (by decide),
   (get_verifier_closed_table "bar-2.0.0.gem").2.1 (by decide),
   (get_verifier_closed_table "pkg.zip").2.2 (by decide) (by decide)⟩

/-- C8 (confirmed). The digest engine is content-addressed and independent of
the read-block size: streaming the contents in blocks of any positive size
feeds exactly the whole contents to the hash, so the digest equals the digest
of hashing everything at once, and two files with identical bytes yield the
identical digest even when read with different block sizes. -/
theorem calc_sha_content_addressed (hexdigest : List UInt8 → String)
    (b b2 : Nat) (c c2 : List UInt8) (hb : 0 < b) (hb2 : 0 < b2) :
    calc_sha hexdigest b c = hexdigest c ∧
    (c = c2 → calc_sha hexdigest b c = calc_sha hexdigest b2 c2) := by
  have key : ∀ bb, 0 < bb → ∀ d : List UInt8, calc_sha hexdigest bb d = hexdigest d := by
    intro bb hbb d
    unfold calc_sha chunkBytes
    rw [foldl_sha256_update, List.nil_append,
      chunkBytesFuel_join bb hbb (d.length + 1) d (Nat.le_succ _)]
  refine ⟨key b hb c, fun hc => ?_⟩
  rw [key b hb c, key b2 hb2 c2, hc]

/-- Witness for C8: block sizes 3 and 4096 on the same five bytes. -/
theorem calc_sha_content_addressed_witness :
    calc_sha (fun l => toString l.length) 3 [1, 2, 3, 4, 5] =
      (fun l : List UInt8 => toString l.length) [1, 2, 3, 4, 5] ∧
    calc_sha (fun l => toString l.length) 3 [1, 2, 3, 4, 5] =
      calc_sha (fun l => toString l.length) 4096 [1, 2, 3, 4, 5] :=
  ⟨(calc_sha_content_addressed (fun l => toString l.length) 3 4096
      [1, 2, 3, 4, 5] [1, 2, 3, 4, 5] (by decide) (by decide)).1,
   (calc_sha_content_addressed (fun l => toString l.length) 3 4096
      [1, 2, 3, 4, 5] [1, 2, 3, 4, 5] (by decide) (by decide)).2 rfl⟩

/-- C9 (confirmed). For every `.gz` package, the verifier `from_disk`
constructs stores `package_path + '.asc'` as the signature path: the
`package_check` argument (the CLI `--sig` value) is passed under a keyword
`GPGVerifier.__init__` never reads, so the constructed state is identical for
every value of that argument. -/
theorem from_disk_ignores_package_check (pp pc pc' : String)
    (h : get_verifier pp = some VerifierType.gpg) :
    from_disk_gpg pp pc = some (.ok ⟨none, pp ++ ".asc", none, some pp⟩) ∧
    from_disk_gpg pp pc = from_disk_gpg pp pc' := by
  constructor <;> simp [from_disk_gpg, h, GPGVerifier_init]

/-- Witness for C9: the constructed verifier for `pkg.tar.gz` uses
`pkg.tar.gz.asc` whatever `--sig` said. -/
theorem from_disk_ignores_package_check_witness :
    from_disk_gpg "pkg.tar.gz" "mysig.asc" =
      some (.ok ⟨none, "pkg.tar.gz" ++ ".asc", none, some "pkg.tar.gz"⟩) ∧
    from_disk_gpg "pkg.tar.gz" "mysig.asc" = from_disk_gpg "pkg.tar.gz" "other" :=
  from_disk_ignores_package_check "pkg.tar.gz" "mysig.asc" "other" (by decide)

/-- C10 (confirmed). When the package path contains no substring matching
`-\d+\.`, the split yields a single piece, the two-element unpacking raises
`ValueError` and `GEMShaVerifier.verify` produces no outcome; and the split
runs on the full path, not the basename: two paths with the same basename
but different directory components derive different package names. -/
theorem gem_split_unpack_and_full_path :
    (∀ (pp : String) (resp : RegistryResponse) (calcsha : String),
      findVD pp.data = none →
      GEMverify pp resp calcsha = .error PyExc.valueError) ∧
    (basename "/v-1./bar.gem" = basename "/w-2./bar.gem" ∧
      derivedName "/v-1./bar.gem" = some "/v" ∧
      derivedName "/w-2./bar.gem" = some "/w") := by
  constructor
  · intro pp resp calcsha h
    unfold GEMverify deriveNameNumber reSplitVD
    simp only [reSplitVDFuel, h]
  · exact ⟨rfl, rfl, rfl⟩

/-- Witness for C10: `bar.gem` has no version-delimiting match, so the
verify body raises `ValueError`. -/
theorem gem_split_unpack_and_full_path_witness :
    GEMverify "bar.gem" (RegistryResponse.parsed []) "xx"
      = .error PyExc.valueError :=
  gem_split_unpack_and_full_path.1 "bar.gem" (RegistryResponse.parsed []) "xx" rfl
